import Mathlib

/-!
# Fluids3D: the solver's public accessors and the render utilities

A shallow embedding of `FluidSim3D/FluidSolver3d.h` (the members of
`FluidSolver3D`, `updateOrientation`, `getGeometry`) and of
`FluidSim3D/RenderUtil.cpp` (`Display`, `loadShader`, `Texture::bind`).

Conventions.
* A C++ `float` is represented by the rational number it denotes; a literal
  such as `0.02f` denotes the binary32 value nearest to the decimal written in
  the source, `binary32 0.02`.
* A C++ `int` is a 32-bit two's complement integer, represented in `Int`.
* An object's member functions take the object as an explicit first argument
  and return the object after the call.
-/

/-! ## Machine integers -/

/-- Least value of a 32-bit `int` (`INT_MIN` of `<climits>`). -/
def INT_MIN : Int := -2147483648

/-- Greatest value of a 32-bit `int` (`INT_MAX` of `<climits>`). -/
def INT_MAX : Int := 2147483647

/-! ## Binary32 values -/

/-- Number of binary digits of `m`, counted with at most `fuel` halvings. -/
def bitLengthAux : Nat → Nat → Nat
  | 0, _ => 0
  | fuel + 1, m => if m = 0 then 0 else bitLengthAux fuel (m / 2) + 1

/-- Number of binary digits of `m` (0 for 0). -/
def bitLength (m : Nat) : Nat := bitLengthAux m m

/-- Digits in the significand of a binary32 `float` (`FLT_MANT_DIG`). -/
def FLT_MANT_DIG : Nat := 24

/-- Position of the leading binary digit of the positive rational `a / b`: the
integer `e` with `2 ^ e ≤ a / b < 2 ^ (e + 1)`. -/
def floorLog2 (a b : Nat) : Int :=
  let d : Int := (bitLength a : Int) - (bitLength b : Int)
  if a * 2 ^ (-d).toNat < b * 2 ^ d.toNat then d - 1 else d

/-- The binary32 value nearest to the positive rational `a / b`, ties to even, as
a significand and a power of two. The unit in the last place is
`2 ^ (e - 23)` for `e` the position of the leading digit, and `2 ^ (-149)` below
the normal range. -/
def binary32Significand (a b : Nat) : Nat × Int :=
  let e := max (floorLog2 a b) (-126)
  let k : Int := 23 - e
  let n := a * 2 ^ k.toNat
  let d := b * 2 ^ (-k).toNat
  let q := n / d
  let r := n % d
  (if 2 * r > d ∨ (2 * r = d ∧ q % 2 = 1) then q + 1 else q, -k)

/-- The value of a `float` literal: the binary32 value nearest to `x`, ties to
even, for `x` of magnitude below `2 ^ 128` (beyond it there is no finite
`float`). -/
def binary32 (x : ℚ) : ℚ :=
  if x = 0 then 0
  else
    let r := binary32Significand x.num.natAbs x.den
    if x < 0 then -((r.1 : ℚ) * 2 ^ r.2) else (r.1 : ℚ) * 2 ^ r.2

/-! ## Vector and grid types -/

namespace glm

/-- The three float components of `glm::vec3`. -/
structure vec3 where
  x : ℚ
  y : ℚ
  z : ℚ
deriving DecidableEq

end glm

namespace SimUtil

/-- Modelled from the spec: `SimUtil.h` is not among the sources; `SimUtil::Vec3`
is the 3-vector of floats the header brace-initialises with three values and
accesses through `.x`, `.y`, `.z`. -/
structure Vec3 where
  x : ℚ
  y : ℚ
  z : ℚ
deriving DecidableEq

/-- Modelled from the spec: `SimUtil.h` is not among the sources; a grid is
"a three-dimensional array of scalars, indexed `[i, j, k]` with contiguous
storage". -/
structure Mat3D (α : Type) where
  width : Int
  height : Int
  depth : Int
  data : List α
deriving DecidableEq

/-- Grid of `int`. -/
abbrev Mat3Di := Mat3D Int

/-- Grid of `float`. -/
abbrev Mat3Df := Mat3D ℚ

/-- Modelled from the spec: `SimUtil.h` is not among the sources; a particle is
"(position ∈ ℝ³, velocity ∈ ℝ³)". -/
structure Particle3D where
  pos : Vec3
  vel : Vec3
deriving DecidableEq

end SimUtil

open SimUtil

/-! ## `FluidSolver3D` -/

/-- The data members of `class FluidSolver3D`, in declaration order. A member
with a default member initialiser in the header carries it as the field's
default value. `m_particles` is the vector the pointer refers to; `m_timer` is
the address held by the pointer. -/
structure FluidSolver3D where
  m_gridWidth : Int
  m_gridHeight : Int
  m_gridDepth : Int
  m_maxGridSize : Int
  m_dx : ℚ
  m_label : Mat3Di
  m_p : Mat3Df
  m_u : Mat3Df
  m_v : Mat3Df
  m_w : Mat3Df
  m_uSaved : Mat3Df
  m_vSaved : Mat3Df
  m_wSaved : Mat3Df
  VEL_UNKNOWN : Int := INT_MIN
  PARTICLES_PER_CELL : Int := 8
  PIC_WEIGHT : ℚ := binary32 0.02
  ADVECT_MAX : Int := 1
  GRAVITY : ℚ := binary32 9.81
  FLUID_DENSITY : ℚ := binary32 1000.0
  SURFACE_THRESHOLD : ℚ := binary32 0.0
  m_dt : ℚ
  m_orientation : Vec3 := { x := binary32 0.0, y := -(binary32 1.0), z := binary32 0.0 }
  m_particles : List Particle3D
  m_cubeCases : List (List glm.vec3)
  m_cubeIndices : List (List Int)
  m_timer : Nat
  ENABLE_TIMING : Bool := true
deriving DecidableEq

/-- The members of `FluidSolver3D` that the header declares without a default
member initialiser; their first values come from the constructor, whose body
(`FluidSolver3D.cpp`) is not among the sources. -/
structure ConstructorSupplied where
  m_gridWidth : Int
  m_gridHeight : Int
  m_gridDepth : Int
  m_maxGridSize : Int
  m_dx : ℚ
  m_label : Mat3Di
  m_p : Mat3Df
  m_u : Mat3Df
  m_v : Mat3Df
  m_w : Mat3Df
  m_uSaved : Mat3Df
  m_vSaved : Mat3Df
  m_wSaved : Mat3Df
  m_dt : ℚ
  m_particles : List Particle3D
  m_cubeCases : List (List glm.vec3)
  m_cubeIndices : List (List Int)
  m_timer : Nat

namespace FluidSolver3D

/-- A solver object as its default member initialisers leave it: every member
declared with an initialiser in the header holds that value, every other member
holds what the constructor supplied. -/
def defaultInit (c : ConstructorSupplied) : FluidSolver3D :=
  { m_gridWidth := c.m_gridWidth
    m_gridHeight := c.m_gridHeight
    m_gridDepth := c.m_gridDepth
    m_maxGridSize := c.m_maxGridSize
    m_dx := c.m_dx
    m_label := c.m_label
    m_p := c.m_p
    m_u := c.m_u
    m_v := c.m_v
    m_w := c.m_w
    m_uSaved := c.m_uSaved
    m_vSaved := c.m_vSaved
    m_wSaved := c.m_wSaved
    m_dt := c.m_dt
    m_particles := c.m_particles
    m_cubeCases := c.m_cubeCases
    m_cubeIndices := c.m_cubeIndices
    m_timer := c.m_timer }

/-- The inline member function
`void updateOrientation(glm::vec3 orientation)`: three component assignments. -/
def updateOrientation (s : FluidSolver3D) (orientation : glm.vec3) : FluidSolver3D :=
  let s1 := { s with m_orientation := { s.m_orientation with x := orientation.x } }
  let s2 := { s1 with m_orientation := { s1.m_orientation with y := orientation.y } }
  { s2 with m_orientation := { s2.m_orientation with z := orientation.z } }

/-- A run of `updateOrientation` calls, oldest first. -/
def updateOrientations (s : FluidSolver3D) (os : List glm.vec3) : FluidSolver3D :=
  os.foldl updateOrientation s

/-- The `Mat3Di` objects of a running program: the solver, whose `m_label` is
one of them, and the objects outside the solver (copies, snapshots, grids of
other owners), by address. -/
structure Memory where
  solver : FluidSolver3D
  outside : Nat → Option Mat3Di

/-- A value of type `SimUtil::Mat3Di*`: the null pointer, the address of the
solver's member `m_label` (its only member of type `Mat3Di`), or the address of
an object outside the solver. -/
inductive Mat3DiPtr where
  | null
  | m_label
  | outside (address : Nat)
deriving DecidableEq

/-- Reading through a pointer in the memory `mem`; nothing is read through the
null pointer or through an address that holds no object. -/
def Mat3DiPtr.deref (p : Mat3DiPtr) (mem : Memory) : Option Mat3Di :=
  match p with
  | .null => none
  | .m_label => some mem.solver.m_label
  | .outside address => mem.outside address

/-- The inline member function `SimUtil::Mat3Di* getGeometry()`: returns
`&m_label`; the second component is the solver after the call. -/
def getGeometry (s : FluidSolver3D) : Mat3DiPtr × FluidSolver3D :=
  (Mat3DiPtr.m_label, s)

/-- Squared Euclidean length of a solver vector. -/
def normSq (v : Vec3) : ℚ := v.x * v.x + v.y * v.y + v.z * v.z

/-- Squared Euclidean length of a `glm::vec3`. -/
def glmNormSq (v : glm.vec3) : ℚ := v.x * v.x + v.y * v.y + v.z * v.z

end FluidSolver3D

/-- Members of a 2×2×2 solver, used for concrete evaluations. -/
def sampleMembers : ConstructorSupplied :=
  { m_gridWidth := 2
    m_gridHeight := 2
    m_gridDepth := 2
    m_maxGridSize := 2
    m_dx := 1
    m_label := ⟨2, 2, 2, [0, 0, 0, 0, 0, 0, 0, 0]⟩
    m_p := ⟨2, 2, 2, [0, 0, 0, 0, 0, 0, 0, 0]⟩
    m_u := ⟨3, 2, 2, [0, 0, 0, 0, 0, 0, 0, 0, 0, 0, 0, 0]⟩
    m_v := ⟨2, 3, 2, [0, 0, 0, 0, 0, 0, 0, 0, 0, 0, 0, 0]⟩
    m_w := ⟨2, 2, 3, [0, 0, 0, 0, 0, 0, 0, 0, 0, 0, 0, 0]⟩
    m_uSaved := ⟨3, 2, 2, [0, 0, 0, 0, 0, 0, 0, 0, 0, 0, 0, 0]⟩
    m_vSaved := ⟨2, 3, 2, [0, 0, 0, 0, 0, 0, 0, 0, 0, 0, 0, 0]⟩
    m_wSaved := ⟨2, 2, 3, [0, 0, 0, 0, 0, 0, 0, 0, 0, 0, 0, 0]⟩
    m_dt := 1 / 128
    m_particles := []
    m_cubeCases := []
    m_cubeIndices := []
    m_timer := 0 }

/-- A 2×2×2 solver on which no member function has been called. -/
def sampleSolver : FluidSolver3D := FluidSolver3D.defaultInit sampleMembers

/-! ## Conversions between `int` and `float`

The C++ implicit conversions a 32-bit `int` undergoes when it is stored in, or
compared with, an IEEE-754 binary32 `float`. -/

/-- Round a magnitude to `FLT_MANT_DIG` significant binary digits, to nearest
with ties to even: the magnitude of the `float` an integer converts to. -/
def roundToSignificand (m : Nat) : Nat :=
  if bitLength m ≤ FLT_MANT_DIG then m
  else
    let sh := bitLength m - FLT_MANT_DIG
    let q := m / 2 ^ sh
    let r := m % 2 ^ sh
    let half := 2 ^ (sh - 1)
    (if r > half ∨ (r = half ∧ q % 2 = 1) then q + 1 else q) * 2 ^ sh

/-- Modelled from the spec: the code that writes the sentinel into a velocity
grid is in `FluidSolver3D.cpp`, which is not among the sources; the spec says the
source keeps `INT_MIN` "inside a float grid as a marker". Storing an `int` in a
`float` element converts its value to the nearest binary32 value. -/
def intToFloat (n : Int) : ℚ :=
  if n < 0 then -((roundToSignificand n.natAbs : Nat) : ℚ)
  else ((roundToSignificand n.natAbs : Nat) : ℚ)

/-- Modelled from the spec: reading a grid element back as an `int` is done in
`FluidSolver3D.cpp`, which is not among the sources. A `float` converts to `int`
by truncation toward zero; there is no result when the truncated value is not an
`int`. -/
def floatToInt (f : ℚ) : Option Int :=
  let t := f.num.tdiv f.den
  if INT_MIN ≤ t ∧ t ≤ INT_MAX then some t else none

/-- Modelled from the spec: the test of a face against the UNKNOWN sentinel is in
`FluidSolver3D.cpp`, which is not among the sources. In `f == n` with `f` a
`float` and `n` an `int`, `n` is converted to `float` and the floats compared. -/
def floatEqInt (f : ℚ) (n : Int) : Bool := decide (f = intToFloat n)

/-! ## `RenderUtil.cpp`: `Display` -/

/-- The field of `SDL_Event` that `Display::update` reads. -/
structure SDL_Event where
  type : Nat
deriving DecidableEq

/-- The event type `SDL_QUIT` of the SDL headers. -/
def SDL_QUIT : Nat := 0x100

/-- The data members of `class Display`; window and context are the handles SDL
returned. -/
structure Display where
  m_window : Nat
  m_glContext : Nat
  m_isClosed : Bool
deriving DecidableEq

namespace Display

/-- The constructor `Display::Display(int width, int height, const std::string& title)`:
`window` and `glContext` are what `SDL_CreateWindow` and `SDL_GL_CreateContext`
returned; the last statement sets `m_isClosed = false`. -/
def construct (_width _height : Int) (_title : List Char) (window glContext : Nat) : Display :=
  { m_window := window, m_glContext := glContext, m_isClosed := false }

/-- The member function `bool Display::isClosed()`. -/
def isClosed (d : Display) : Bool := d.m_isClosed

/-- The member function `void Display::update()`. `pending` is the queue
`SDL_PollEvent` hands out during this call, one event per iteration of the
`while` loop, until it returns 0 at the end of the queue. -/
def update (d : Display) : List SDL_Event → Display
  | [] => d
  | e :: pending =>
    update (if e.type = SDL_QUIT then { d with m_isClosed := true } else d) pending

/-- A run of `update` calls, oldest first, each with its own queue. -/
def updates (d : Display) (queues : List (List SDL_Event)) : Display :=
  queues.foldl update d

end Display

/-! ## `RenderUtil.cpp`: `loadShader` -/

/-- A file system as `std::ifstream::open` sees it: the characters of the file
under a name, or nothing when the file cannot be opened. -/
abbrev FileSystem := List Char → Option (List Char)

/-- The state of a `std::ifstream`: the characters not yet extracted and the
state flags that `good()` tests. -/
structure ifstream where
  is_open : Bool
  rest : List Char
  eofbit : Bool
  failbit : Bool
deriving DecidableEq

namespace ifstream

/-- A default-constructed stream after `file.open(fileName)`; a failed open sets
`failbit`. -/
def openFile (fs : FileSystem) (fileName : List Char) : ifstream :=
  match fs fileName with
  | some c => { is_open := true, rest := c, eofbit := false, failbit := false }
  | none => { is_open := false, rest := [], eofbit := false, failbit := true }

/-- The member function `good()`: no state flag is set. -/
def good (f : ifstream) : Bool := !f.eofbit && !f.failbit

end ifstream

/-- The extraction step of `std::getline`: characters up to the first newline,
which is extracted and dropped, or up to the end of the file. Returns the line,
the characters left, and whether the end of the file was reached. -/
def extractLine : List Char → List Char × List Char × Bool
  | [] => ([], [], true)
  | c :: cs =>
    if c = '\n' then ([], cs, false)
    else
      let r := extractLine cs
      (c :: r.1, r.2.1, r.2.2)

/-- The call `getline(file, line)`. On a good stream the line is replaced by the
extracted characters, `eofbit` is set when the end of the file was reached and
`failbit` when nothing at all was extracted; on a stream that is not good the
line is kept and `failbit` is set. -/
def getline (file : ifstream) (line : List Char) : ifstream × List Char :=
  if file.good then
    let r := extractLine file.rest
    ({ file with
        rest := r.2.1
        eofbit := r.2.2
        failbit := decide (file.rest = []) }, r.1)
  else
    ({ file with failbit := true }, line)

/-- The loop `while (file.good()) { getline(file, line); output.append(line + "\n"); }`
of `loadShader`, returning `output` when the loop is left. -/
def loadShaderLoop (file : ifstream) (output line : List Char) : List Char :=
  if file.good = true then
    loadShaderLoop (getline file line).1
      (output ++ ((getline file line).2 ++ ['\n'])) (getline file line).2
  else output
termination_by file.rest.length + (if file.good = true then 1 else 0)
decreasing_by
  rename_i h
  have hle : ∀ cs : List Char, (extractLine cs).2.1.length ≤ cs.length := by
    intro cs
    induction cs with
    | nil => simp [extractLine]
    | cons c cs ih =>
      by_cases hc : c = '\n'
      · simp [extractLine, hc]
      · simp only [extractLine, hc, if_false, List.length_cons]
        omega
  have hlt : ∀ cs : List Char, (extractLine cs).2.2 = false →
      (extractLine cs).2.1.length < cs.length := by
    intro cs
    induction cs with
    | nil => simp [extractLine]
    | cons c cs ih =>
      by_cases hc : c = '\n'
      · simp [extractLine, hc]
      · simp only [extractLine, hc, if_false, List.length_cons]
        intro h2
        have := ih h2
        omega
  have h1 := hle file.rest
  have h2 := hlt file.rest
  simp only [getline, h, if_true]
  cases he : (extractLine file.rest).2.2 with
  | false =>
    have := h2 he
    split <;> omega
  | true =>
    simp [ifstream.good]
    omega

/-- The function `std::string loadShader(const std::string& fileName)`. -/
def loadShader (fs : FileSystem) (fileName : List Char) : List Char :=
  let file := ifstream.openFile fs fileName
  if file.is_open then loadShaderLoop file [] [] else []

/-! ## `RenderUtil.cpp`: `Texture::bind` -/

/-- The enumerant `GL_TEXTURE0` of the OpenGL headers. -/
def GL_TEXTURE0 : Nat := 0x84C0

/-- Number of values of a 32-bit `unsigned int`. -/
def UINT_SIZE : Nat := 2 ^ 32

/-- The part of the OpenGL state `Texture::bind` writes: the active texture unit
and the 2D texture bound in each unit. -/
structure GLState where
  activeTexture : Nat
  texture2D : Nat → Nat

/-- The call `glActiveTexture(texture)`: selects the unit named by the enumerant. -/
def glActiveTexture (gl : GLState) (texture : Nat) : GLState :=
  { gl with activeTexture := texture }

/-- The call `glBindTexture(GL_TEXTURE_2D, texture)`: binds in the active unit. -/
def glBindTexture2D (gl : GLState) (texture : Nat) : GLState :=
  { gl with texture2D := Function.update gl.texture2D gl.activeTexture texture }

/-- The data member of `class Texture` that `bind` reads. -/
structure Texture where
  m_texture : Nat

namespace Texture

/-- The condition of `assert(unit >= 0 && unit <= 31)` for an `unsigned int`. -/
def bindAssertion (unit : Nat) : Bool := decide (unit ≥ 0 ∧ unit ≤ 31)

/-- The member function `void Texture::bind(unsigned int unit)` with assertions
enabled: no state when the assertion fails (the program aborts); the sum
`GL_TEXTURE0 + unit` is taken in 32-bit unsigned arithmetic. -/
def bind (t : Texture) (gl : GLState) (unit : Nat) : Option GLState :=
  if bindAssertion unit then
    some (glBindTexture2D (glActiveTexture gl ((GL_TEXTURE0 + unit) % UINT_SIZE)) t.m_texture)
  else none

end Texture

/-- A file system with one shader file, `a`, holding two lines of which the last
has no newline. -/
def sampleFiles : FileSystem := fun name =>
  if name = ['a'] then some ['x', '\n', 'y'] else none

/-- An OpenGL state with unit `GL_TEXTURE0` active and nothing bound. -/
def sampleGL : GLState := { activeTexture := GL_TEXTURE0, texture2D := fun _ => 0 }

theorem binary32_zero : binary32 0.0 = 0 := by
  norm_num [binary32]

theorem binary32_one : binary32 1.0 = 1 := by
  have hn : (1.0 : ℚ).num = 1 := by norm_num
  have hd : (1.0 : ℚ).den = 1 := by norm_num
  have hs : binary32Significand 1 1 = (8388608, -23) := by decide
  have h0 : ¬ ((1.0 : ℚ) = 0) := by norm_num
  have hneg : ¬ ((1.0 : ℚ) < 0) := by norm_num
  simp only [binary32, h0, hneg, if_false, hn, hd, Int.natAbs_one, hs]
  norm_num

/-- The rounding is not the identity on decimals, and is the identity on a value
that is a binary32 value already. -/
theorem binary32_third_and_half :
    binary32 (1 / 3) = 11184811 / 33554432 ∧ binary32 (1 / 2) = 1 / 2 := by
  have hn3 : ((1 : ℚ) / 3).num = 1 := by norm_num
  have hd3 : ((1 : ℚ) / 3).den = 3 := by norm_num
  have hs3 : binary32Significand 1 3 = (11184811, -25) := by decide
  have hn2 : ((1 : ℚ) / 2).num = 1 := by norm_num
  have hd2 : ((1 : ℚ) / 2).den = 2 := by norm_num
  have hs2 : binary32Significand 1 2 = (8388608, -24) := by decide
  have h03 : ¬ (((1 : ℚ) / 3) = 0) := by norm_num
  have hneg3 : ¬ (((1 : ℚ) / 3) < 0) := by norm_num
  have h02 : ¬ (((1 : ℚ) / 2) = 0) := by norm_num
  have hneg2 : ¬ (((1 : ℚ) / 2) < 0) := by norm_num
  constructor
  · simp only [binary32, h03, hneg3, if_false, hn3, hd3, Int.natAbs_one, hs3]
    norm_num
  · simp only [binary32, h02, hneg2, if_false, hn2, hd2, Int.natAbs_one, hs2]
    norm_num

/-! ## Theorems: `FluidSolver3D` -/

namespace FluidSolver3D

/-- C1: after `updateOrientation(o)` the solver's orientation equals `o`
component for component, whatever the state and the vector. -/
theorem updateOrientation_sets_orientation (s : FluidSolver3D) (o : glm.vec3) :
    (updateOrientation s o).m_orientation.x = o.x ∧
    (updateOrientation s o).m_orientation.y = o.y ∧
    (updateOrientation s o).m_orientation.z = o.z :=
  ⟨rfl, rfl, rfl⟩

/-- C2: `updateOrientation(o)` leaves the grid dimensions, `dx`, `dt`, the label
and pressure grids, the velocity grids and their saved copies, and the particle
sequence as they were; indeed the state after the call is the state before it
with only `m_orientation` replaced. -/
theorem updateOrientation_frame (s : FluidSolver3D) (o : glm.vec3) :
    (updateOrientation s o).m_gridWidth = s.m_gridWidth ∧
    (updateOrientation s o).m_gridHeight = s.m_gridHeight ∧
    (updateOrientation s o).m_gridDepth = s.m_gridDepth ∧
    (updateOrientation s o).m_maxGridSize = s.m_maxGridSize ∧
    (updateOrientation s o).m_dx = s.m_dx ∧
    (updateOrientation s o).m_dt = s.m_dt ∧
    (updateOrientation s o).m_label = s.m_label ∧
    (updateOrientation s o).m_p = s.m_p ∧
    (updateOrientation s o).m_u = s.m_u ∧
    (updateOrientation s o).m_v = s.m_v ∧
    (updateOrientation s o).m_w = s.m_w ∧
    (updateOrientation s o).m_uSaved = s.m_uSaved ∧
    (updateOrientation s o).m_vSaved = s.m_vSaved ∧
    (updateOrientation s o).m_wSaved = s.m_wSaved ∧
    (updateOrientation s o).m_particles = s.m_particles ∧
    updateOrientation s o = { s with m_orientation := (updateOrientation s o).m_orientation } :=
  ⟨rfl, rfl, rfl, rfl, rfl, rfl, rfl, rfl, rfl, rfl, rfl, rfl, rfl, rfl, rfl, rfl⟩

theorem orientation_defaultInit (c : ConstructorSupplied) :
    (defaultInit c).m_orientation = ⟨0, -1, 0⟩ := by
  show (⟨binary32 0.0, -(binary32 1.0), binary32 0.0⟩ : Vec3) = ⟨0, -1, 0⟩
  rw [binary32_zero, binary32_one]

/-- C4: a solver on which `updateOrientation` has not been called has orientation
`(0, -1, 0)`, the value of the default member initialiser of `m_orientation`. -/
theorem defaultInit_orientation (c : ConstructorSupplied) :
    (defaultInit c).m_orientation.x = 0 ∧
    (defaultInit c).m_orientation.y = -1 ∧
    (defaultInit c).m_orientation.z = 0 := by
  rw [orientation_defaultInit]
  exact ⟨rfl, rfl, rfl⟩

/-- A pointer to an object outside the solver is no view of the label grid: in
a memory where that object is a snapshot taken before the solver's grid changed,
it reads the old contents. -/
theorem outside_pointer_reads_snapshot (s : FluidSolver3D) (address : Nat)
    (old new : Mat3Di) (h : old ≠ new) :
    (Mat3DiPtr.outside address).deref
        ⟨{ s with m_label := new }, fun a => if a = address then some old else none⟩
      ≠ some new := by
  simp [Mat3DiPtr.deref, h]

/-- C5: `getGeometry` changes no member of the solver and returns the address of
the solver's own `m_label`: read in the state of the call, whatever else is in
memory, it gives that state's label grid, and read in any later memory it gives
the label grid the solver has then, so it is neither null nor the address of a
copy or snapshot. -/
theorem getGeometry_view (s : FluidSolver3D) :
    (getGeometry s).2 = s ∧
    (getGeometry s).1 = Mat3DiPtr.m_label ∧
    (∀ outside : Nat → Option Mat3Di,
      (getGeometry s).1.deref ⟨(getGeometry s).2, outside⟩ = some s.m_label) ∧
    (∀ mem : Memory, (getGeometry s).1.deref mem = some mem.solver.m_label) ∧
    (∀ (mem : Memory) (v : Mat3Di),
      (getGeometry s).1.deref { mem with solver := { mem.solver with m_label := v } }
        = some v) :=
  ⟨rfl, rfl, fun _ => rfl, fun _ => rfl, fun _ _ => rfl⟩

theorem updateOrientations_eq (s : FluidSolver3D) (os : List glm.vec3) :
    updateOrientations s os =
      { s with m_orientation := (updateOrientations s os).m_orientation } := by
  induction os generalizing s with
  | nil => rfl
  | cons o os ih =>
    have h := ih (updateOrientation s o)
    simp only [updateOrientations, List.foldl_cons] at h ⊢
    rw [h]
    rfl

theorem normSq_updateOrientation (s : FluidSolver3D) (o : glm.vec3) :
    normSq (updateOrientation s o).m_orientation = glmNormSq o := rfl

theorem normSq_updateOrientations (s : FluidSolver3D) (os : List glm.vec3)
    (hs : normSq s.m_orientation = 1) (h : ∀ o ∈ os, glmNormSq o = 1) :
    normSq (updateOrientations s os).m_orientation = 1 := by
  induction os generalizing s with
  | nil => exact hs
  | cons o os ih =>
    simp only [updateOrientations, List.foldl_cons]
    apply ih
    · rw [normSq_updateOrientation]
      exact h o (List.mem_cons_self o os)
    · intro o2 ho2
      exact h o2 (List.mem_cons_of_mem o ho2)

theorem normSq_defaultInit (c : ConstructorSupplied) :
    normSq (defaultInit c).m_orientation = 1 := by
  rw [orientation_defaultInit]
  norm_num [normSq]

/-- The Euclidean length of a solver vector is 1 exactly when its squared
length is 1. -/
theorem sqrt_normSq_eq_one_iff (v : Vec3) :
    Real.sqrt ((normSq v : ℚ) : ℝ) = 1 ↔ normSq v = 1 := by
  rw [Real.sqrt_eq_one]
  exact_mod_cast Iff.rfl

/-- C3, as stated, fails: after `updateOrientation((2, 0, 0))` on a fresh solver
the orientation is `(2, 0, 0)`, of squared length 4, not a unit vector. -/
theorem orientation_not_unit_after_update :
    (updateOrientations sampleSolver [⟨2, 0, 0⟩]).m_orientation = ⟨2, 0, 0⟩ ∧
    normSq (updateOrientations sampleSolver [⟨2, 0, 0⟩]).m_orientation = 4 ∧
    normSq (updateOrientations sampleSolver [⟨2, 0, 0⟩]).m_orientation ≠ 1 := by
  refine ⟨rfl, ?_, ?_⟩ <;>
    norm_num [updateOrientations, updateOrientation, normSq]

/-- C3, amended: the orientation has Euclidean length 1 in a solver on which no
call has been made, and still has length 1 after any sequence of
`updateOrientation` calls whose argument vectors all have length 1. -/
theorem orientation_unit_of_unit_args (c : ConstructorSupplied) (os : List glm.vec3)
    (h : ∀ o ∈ os, glmNormSq o = 1) :
    normSq (defaultInit c).m_orientation = 1 ∧
    normSq (updateOrientations (defaultInit c) os).m_orientation = 1 :=
  ⟨normSq_defaultInit c, normSq_updateOrientations _ os (normSq_defaultInit c) h⟩

/-- Witness for C3 amended: two unit arguments, both binary32 vectors. -/
theorem orientation_unit_of_unit_args_witness :
    normSq (defaultInit sampleMembers).m_orientation = 1 ∧
    normSq (updateOrientations (defaultInit sampleMembers)
      [⟨1, 0, 0⟩, ⟨0, 0, -1⟩]).m_orientation = 1 :=
  orientation_unit_of_unit_args sampleMembers [⟨1, 0, 0⟩, ⟨0, 0, -1⟩] (by
    intro o ho
    simp only [List.mem_cons, List.mem_singleton, List.not_mem_nil, or_false] at ho
    rcases ho with rfl | rfl <;> norm_num [glmNormSq])

end FluidSolver3D

/-! ## Theorems: the UNKNOWN sentinel in a float grid -/

theorem roundToSignificand_two_pow_31 : roundToSignificand 2147483648 = 2147483648 := by
  decide

theorem intToFloat_INT_MIN : intToFloat INT_MIN = -2147483648 := by
  have h : INT_MIN.natAbs = 2147483648 := by decide
  have hneg : INT_MIN < 0 := by decide
  simp only [intToFloat, hneg, if_true, h, roundToSignificand_two_pow_31]
  norm_num

/-- The conversion is not the identity on every `int`: `INT_MAX` has 31
significant digits and is stored as `2^31`, which reads back as no `int`. -/
theorem intToFloat_INT_MAX :
    intToFloat INT_MAX = 2147483648 ∧ floatToInt (intToFloat INT_MAX) = none := by
  have h : INT_MAX.natAbs = 2147483647 := by decide
  have hr : roundToSignificand 2147483647 = 2147483648 := by decide
  have hneg : ¬ INT_MAX < 0 := by decide
  have hv : intToFloat INT_MAX = 2147483648 := by
    simp only [intToFloat, hneg, if_false, h, hr]
    norm_num
  refine ⟨hv, ?_⟩
  rw [hv]
  have hn : ((2147483648 : ℚ)).num = 2147483648 := rfl
  have hd : ((2147483648 : ℚ)).den = 1 := rfl
  simp only [floatToInt, hn, hd]
  decide

/-- C8: `VEL_UNKNOWN` is `INT_MIN = -2^31`; stored in a float grid it is exactly
`-2^31`, reading it back as an `int` gives `INT_MIN`, and the stored float
compares equal to `VEL_UNKNOWN`. -/
theorem VEL_UNKNOWN_stored_exactly (c : ConstructorSupplied) :
    (FluidSolver3D.defaultInit c).VEL_UNKNOWN = INT_MIN ∧
    INT_MIN = -2 ^ 31 ∧
    intToFloat (FluidSolver3D.defaultInit c).VEL_UNKNOWN = -2 ^ 31 ∧
    floatToInt (intToFloat (FluidSolver3D.defaultInit c).VEL_UNKNOWN) = some INT_MIN ∧
    floatEqInt (intToFloat (FluidSolver3D.defaultInit c).VEL_UNKNOWN)
      (FluidSolver3D.defaultInit c).VEL_UNKNOWN = true := by
  have hv : (FluidSolver3D.defaultInit c).VEL_UNKNOWN = INT_MIN := rfl
  have hn : ((-2147483648 : ℚ)).num = -2147483648 := rfl
  have hd : ((-2147483648 : ℚ)).den = 1 := rfl
  refine ⟨hv, by decide, ?_, ?_, ?_⟩
  · rw [hv, intToFloat_INT_MIN]
    norm_num
  · rw [hv, intToFloat_INT_MIN]
    simp only [floatToInt, hn, hd]
    decide
  · simp [floatEqInt]

/-! ## Theorems: `Display` -/

namespace Display

theorem isClosed_update (d : Display) (q : List SDL_Event) :
    (update d q).isClosed = (d.isClosed || q.any (fun e => decide (e.type = SDL_QUIT))) := by
  induction q generalizing d with
  | nil => simp [update]
  | cons e q ih =>
    rw [update, ih]
    by_cases he : e.type = SDL_QUIT
    · simp [he, isClosed]
    · simp [he]

theorem isClosed_updates (d : Display) (queues : List (List SDL_Event)) :
    (updates d queues).isClosed =
      (d.isClosed || queues.any (fun q => q.any (fun e => decide (e.type = SDL_QUIT)))) := by
  induction queues generalizing d with
  | nil => simp [updates]
  | cons q queues ih =>
    have h := ih (update d q)
    simp only [updates, List.foldl_cons] at h ⊢
    rw [h, isClosed_update]
    simp [Bool.or_assoc]

theorem updates_append (d : Display) (qs more : List (List SDL_Event)) :
    updates d (qs ++ more) = updates (updates d qs) more := by
  simp [updates, List.foldl_append]

/-- C7: `isClosed()` is false right after construction; after any run of
`update` calls it is true exactly when one of their queues held an `SDL_QUIT`
event; and once true it stays true through every later `update`. -/
theorem isClosed_iff_quit_polled (width height : Int) (title : List Char)
    (window glContext : Nat) (queues : List (List SDL_Event)) :
    (construct width height title window glContext).isClosed = false ∧
    ((updates (construct width height title window glContext) queues).isClosed = true ↔
      ∃ q ∈ queues, ∃ e ∈ q, e.type = SDL_QUIT) ∧
    (∀ more : List (List SDL_Event),
      (updates (construct width height title window glContext) queues).isClosed = true →
      (updates (construct width height title window glContext) (queues ++ more)).isClosed
        = true) := by
  refine ⟨rfl, ?_, ?_⟩
  · rw [isClosed_updates]
    simp [construct, isClosed]
  · intro more h
    rw [updates_append, isClosed_updates, h]
    rfl

/-- Witness for C7: the second of three updates polls the quit event. -/
theorem isClosed_iff_quit_polled_witness :
    (updates (construct 640 480 ['w'] 1 2) [[⟨0x200⟩]]).isClosed = false ∧
    (updates (construct 640 480 ['w'] 1 2) [[⟨0x200⟩], [⟨0x300⟩, ⟨0x100⟩]]).isClosed = true ∧
    (updates (construct 640 480 ['w'] 1 2)
      ([[⟨0x200⟩], [⟨0x300⟩, ⟨0x100⟩]] ++ [[⟨0x200⟩]])).isClosed = true :=
  ⟨by decide,
   (isClosed_iff_quit_polled 640 480 ['w'] 1 2 [[⟨0x200⟩], [⟨0x300⟩, ⟨0x100⟩]]).2.1.mpr
     ⟨[⟨0x300⟩, ⟨0x100⟩], by simp, ⟨0x100⟩, by simp, rfl⟩,
   (isClosed_iff_quit_polled 640 480 ['w'] 1 2 [[⟨0x200⟩], [⟨0x300⟩, ⟨0x100⟩]]).2.2
     [[⟨0x200⟩]] (by decide)⟩

end Display

/-! ## Theorems: `loadShader` -/

theorem extractLine_eof (cs : List Char) (h : (extractLine cs).2.2 = true) :
    (extractLine cs).1 = cs ∧ (extractLine cs).2.1 = [] := by
  induction cs with
  | nil => simp [extractLine]
  | cons c cs ih =>
    by_cases hc : c = '\n'
    · simp [extractLine, hc] at h
    · simp only [extractLine, hc, if_false] at h ⊢
      exact ⟨by rw [(ih h).1], (ih h).2⟩

theorem extractLine_delim (cs : List Char) (h : (extractLine cs).2.2 = false) :
    cs = (extractLine cs).1 ++ '\n' :: (extractLine cs).2.1 := by
  induction cs with
  | nil => simp [extractLine] at h
  | cons c cs ih =>
    by_cases hc : c = '\n'
    · simp [extractLine, hc]
    · simp only [extractLine, hc, if_false] at h ⊢
      rw [List.cons_append, ← ih h]

theorem extractLine_rest_lt (cs : List Char) (h : (extractLine cs).2.2 = false) :
    (extractLine cs).2.1.length < cs.length := by
  have := congrArg List.length (extractLine_delim cs h)
  simp only [List.length_append, List.length_cons] at this
  omega

theorem getline_of_good (file : ifstream) (line : List Char) (hg : file.good = true) :
    getline file line =
      ({ file with
          rest := (extractLine file.rest).2.1
          eofbit := (extractLine file.rest).2.2
          failbit := decide (file.rest = []) }, (extractLine file.rest).1) := by
  rw [getline, if_pos hg]

theorem loadShaderLoop_of_not_good (file : ifstream) (output line : List Char)
    (hg : file.good = false) : loadShaderLoop file output line = output := by
  rw [loadShaderLoop]
  simp [hg]

theorem loadShaderLoop_good (n : Nat) :
    ∀ (file : ifstream) (output line : List Char), file.rest.length = n →
      file.good = true → loadShaderLoop file output line = output ++ file.rest ++ ['\n'] := by
  induction n using Nat.strong_induction_on with
  | _ n ih =>
    intro file output line hn hg
    rw [loadShaderLoop, if_pos hg, getline_of_good file line hg]
    cases he : (extractLine file.rest).2.2 with
    | true =>
      obtain ⟨h1, _⟩ := extractLine_eof _ he
      rw [loadShaderLoop_of_not_good _ _ _ (by simp [ifstream.good]), h1]
      simp
    | false =>
      have hd := extractLine_delim _ he
      have hne : file.rest ≠ [] := by
        intro h0
        rw [h0] at he
        simp [extractLine] at he
      have hlen : (extractLine file.rest).2.1.length < n := by
        have := extractLine_rest_lt _ he
        omega
      rw [ih _ hlen _ _ _ rfl (by simp [ifstream.good, hne])]
      conv_rhs => rw [hd]
      simp

/-- C9: for a file that can be opened, with contents `c`, `loadShader` returns
`c` followed by one newline, for every `c`; for a file that cannot be opened it
returns the empty string. The read loop is a total function. -/
theorem loadShader_appends_newline (fs : FileSystem) (fileName : List Char) :
    (∀ c : List Char, fs fileName = some c → loadShader fs fileName = c ++ ['\n']) ∧
    (fs fileName = none → loadShader fs fileName = []) := by
  constructor
  · intro c hc
    simp only [loadShader, ifstream.openFile, hc, if_true]
    rw [loadShaderLoop_good c.length
      { is_open := true, rest := c, eofbit := false, failbit := false } [] [] rfl rfl]
    simp
  · intro hc
    simp [loadShader, ifstream.openFile, hc]

/-- Witness for C9: the file `a` holds `x\ny`; the file `b` does not exist. -/
theorem loadShader_appends_newline_witness :
    loadShader sampleFiles ['a'] = ['x', '\n', 'y', '\n'] ∧
    loadShader sampleFiles ['b'] = [] :=
  ⟨(loadShader_appends_newline sampleFiles ['a']).1 ['x', '\n', 'y'] (by decide),
   (loadShader_appends_newline sampleFiles ['b']).2 (by decide)⟩

/-! ## Theorems: `Texture::bind` -/

namespace Texture

/-- C10: the assertion of `bind(n)` holds exactly when `n ≤ 31`; when it holds
the unit activated is `GL_TEXTURE0 + n`, and when it fails nothing is bound. -/
theorem bind_assertion_iff (t : Texture) (gl : GLState) (n : Nat) :
    (bindAssertion n = true ↔ n ≤ 31) ∧
    (n ≤ 31 → ∃ gl2, bind t gl n = some gl2 ∧ gl2.activeTexture = GL_TEXTURE0 + n ∧
      gl2.texture2D (GL_TEXTURE0 + n) = t.m_texture) ∧
    (31 < n → bind t gl n = none) := by
  have hiff : bindAssertion n = true ↔ n ≤ 31 := by simp [bindAssertion]
  refine ⟨hiff, ?_, ?_⟩
  · intro h
    have hmod : (GL_TEXTURE0 + n) % UINT_SIZE = GL_TEXTURE0 + n := by
      apply Nat.mod_eq_of_lt
      simp only [GL_TEXTURE0, UINT_SIZE]
      omega
    refine ⟨glBindTexture2D (glActiveTexture gl ((GL_TEXTURE0 + n) % UINT_SIZE)) t.m_texture,
      by simp only [bind, hiff.mpr h, if_true], ?_, ?_⟩
    · simp [glBindTexture2D, glActiveTexture, hmod]
    · simp [glBindTexture2D, glActiveTexture, hmod]
  · intro h
    have : bindAssertion n = false := by
      simp [bindAssertion]
      omega
    simp [bind, this]

/-- Witness for C10: unit 5 passes the assertion and activates `GL_TEXTURE0 + 5`. -/
theorem bind_assertion_iff_witness :
    bindAssertion 5 = true ∧
    ∃ gl2, bind ⟨7⟩ sampleGL 5 = some gl2 ∧ gl2.activeTexture = GL_TEXTURE0 + 5 ∧
      gl2.texture2D (GL_TEXTURE0 + 5) = 7 :=
  ⟨(bind_assertion_iff ⟨7⟩ sampleGL 5).1.mpr (by decide),
   (bind_assertion_iff ⟨7⟩ sampleGL 5).2.1 (by decide)⟩

end Texture
